import Mathlib

/-
  Verification of the grid-preparation and simulation-wiring core of the
  QuantLib pricing library, shallowly embedded in Lean 4.

  Embedded sources:
  * Sources/Pricers/bsmnumericaloption.cpp
      BSMNumericalOption::setGridLimits, initializeGrid,
      initializeInitialCondition, initializeOperator, and the lazy
      value/delta/gamma/theta accessors.
  * ql/pricingengines/forward/mcforwardvanillaengine.hpp
      MCForwardVanillaEngine constructor validation and timeGrid.

  C++ doubles are modelled as real numbers; the properties of interest are
  stated by the specification "up to floating-point rounding only", so the
  real-number semantics is the intended one.
-/

namespace QuantLib

/-- Result record of `BSMNumericalOption::setGridLimits`: the grid bounds
written into the members `sMin_` and `sMax_`. -/
structure GridLimits where
  sMin : ℝ
  sMax : ℝ

/-- `volatility_*QL_SQRT(residualTime_)` (bsmnumericaloption.cpp line 168). -/
noncomputable def volSqrtTime (volatility residualTime : ℝ) : ℝ :=
  volatility * Real.sqrt residualTime

/-- `QL_EXP(4.0 * prefactor * volSqrtTime)` with
`prefactor = 1.0 + 0.02/volSqrtTime` (lines 170-171). -/
noncomputable def minMaxFactor (volatility residualTime : ℝ) : ℝ :=
  Real.exp (4.0 * (1.0 + 0.02 / volSqrtTime volatility residualTime)
    * volSqrtTime volatility residualTime)

/-- `double safetyZoneFactor = 1.1` (line 176). -/
noncomputable def safetyZoneFactor : ℝ := 1.1

/-- Value of `sMin_` after the first (lower-bound) re-centering `if` of
`setGridLimits` (lines 177-181): it is re-set to `strike_/safetyZoneFactor`
exactly when the freshly computed `underlying_/minMaxFactor` exceeds that. -/
noncomputable def sMinAfterLower (underlying strike volatility residualTime : ℝ) : ℝ :=
  if underlying / minMaxFactor volatility residualTime > strike / safetyZoneFactor then
    strike / safetyZoneFactor
  else
    underlying / minMaxFactor volatility residualTime

/-- Value of `sMax_` after the first (lower-bound) re-centering `if` of
`setGridLimits` (lines 177-181): when the branch fires, the code re-centers
with `sMax_ = underlying_/(sMin_/underlying_)` where `sMin_` has just been
set to `strike_/safetyZoneFactor`. -/
noncomputable def sMaxAfterLower (underlying strike volatility residualTime : ℝ) : ℝ :=
  if underlying / minMaxFactor volatility residualTime > strike / safetyZoneFactor then
    underlying / ((strike / safetyZoneFactor) / underlying)
  else
    underlying * minMaxFactor volatility residualTime

/-- The lower re-centering branch (line 177) fires. -/
def lowerRecenterFires (underlying strike volatility residualTime : ℝ) : Prop :=
  underlying / minMaxFactor volatility residualTime > strike / safetyZoneFactor

/-- The upper re-centering branch (line 182) fires; its condition reads the
value of `sMax_` left by the lower branch. -/
def upperRecenterFires (underlying strike volatility residualTime : ℝ) : Prop :=
  sMaxAfterLower underlying strike volatility residualTime
    < strike * safetyZoneFactor

/-- `BSMNumericalOption::setGridLimits` (bsmnumericaloption.cpp lines
166-187): initial bounds `underlying_/minMaxFactor` and
`underlying_*minMaxFactor`, then the two sequential re-centering branches;
the second branch (lines 182-186) reads the state left by the first and, when
it fires, sets `sMax_ = strike_*safetyZoneFactor` and re-centers with
`sMin_ = underlying_/(sMax_/underlying_)`. -/
noncomputable def setGridLimits (underlying strike volatility residualTime : ℝ) :
    GridLimits :=
  if sMaxAfterLower underlying strike volatility residualTime
      < strike * safetyZoneFactor then
    ⟨underlying / ((strike * safetyZoneFactor) / underlying),
     strike * safetyZoneFactor⟩
  else
    ⟨sMinAfterLower underlying strike volatility residualTime,
     sMaxAfterLower underlying strike volatility residualTime⟩

theorem volSqrtTime_pos (volatility residualTime : ℝ)
    (hv : 0 < volatility) (ht : 0 < residualTime) :
    0 < volSqrtTime volatility residualTime :=
  mul_pos hv (Real.sqrt_pos.mpr ht)

theorem one_lt_minMaxFactor (volatility residualTime : ℝ)
    (hv : 0 < volatility) (ht : 0 < residualTime) :
    1 < minMaxFactor volatility residualTime := by
  have hx : 0 < volSqrtTime volatility residualTime := volSqrtTime_pos _ _ hv ht
  have harg : (0:ℝ) < 4.0 * (1.0 + 0.02 / volSqrtTime volatility residualTime)
      * volSqrtTime volatility residualTime := by
    have h1 : (0:ℝ) < 0.02 / volSqrtTime volatility residualTime :=
      div_pos (by norm_num) hx
    have h2 : (0:ℝ) < 1.0 + 0.02 / volSqrtTime volatility residualTime := by linarith
    positivity
  calc (1:ℝ) = Real.exp 0 := (Real.exp_zero).symm
    _ < minMaxFactor volatility residualTime := Real.exp_lt_exp.mpr harg

theorem minMaxFactor_pos (volatility residualTime : ℝ) :
    0 < minMaxFactor volatility residualTime :=
  Real.exp_pos _

/-- Whenever the upper re-centering branch fires, the spot is strictly below
the strike: in the lower-branch case because the re-centered upper bound
`S²/(K/1.1)` is below `1.1·K` exactly when `S² < K²`, and otherwise because
`S/M ≤ K/1.1` and `S·M < 1.1·K` multiply to `S² < K²`. -/
theorem spot_lt_strike_of_upper_fire (S K v T : ℝ)
    (hS : 0 < S) (hK : 0 < K) (hv : 0 < v) (hT : 0 < T)
    (h2 : sMaxAfterLower S K v T < K * safetyZoneFactor) : S < K := by
  have hM1 : 1 < minMaxFactor v T := one_lt_minMaxFactor v T hv hT
  have hM0 : 0 < minMaxFactor v T := minMaxFactor_pos v T
  have hsz : safetyZoneFactor = (1.1:ℝ) := rfl
  have hsq : S * S < K * K := by
    by_cases h1 : S / minMaxFactor v T > K / safetyZoneFactor
    · rw [sMaxAfterLower, if_pos h1, hsz, div_div_eq_mul_div] at h2
      have hd : (0:ℝ) < K / 1.1 := by positivity
      rw [div_lt_iff₀ hd] at h2
      have he : K * 1.1 * (K / 1.1) = K * K := by ring
      linarith [he ▸ h2]
    · rw [sMaxAfterLower, if_neg h1, hsz] at h2
      push_neg at h1
      rw [hsz] at h1
      have hprod : S / minMaxFactor v T * (S * minMaxFactor v T)
          < K / 1.1 * (K * 1.1) := by
        refine mul_lt_mul' h1 h2 (by positivity) (by positivity)
      have he1 : S / minMaxFactor v T * (S * minMaxFactor v T) = S * S := by
        field_simp
        ring
      have he2 : K / 1.1 * (K * 1.1) = K * K := by ring
      rw [he1, he2] at hprod
      exact hprod
  nlinarith [hsq, hS, hK]

/-- Claim C1: for every spot S>0, strike K>0, volatility v>0 and residual
time T>0, setGridLimits terminates (in this embedding it is a total
function) with bounds that strictly bracket the spot, sMin < S < sMax,
in every combination of re-centering branches. -/
theorem setGridLimits_spot_inside (S K v T : ℝ)
    (hS : 0 < S) (hK : 0 < K) (hv : 0 < v) (hT : 0 < T) :
    (setGridLimits S K v T).sMin < S ∧ S < (setGridLimits S K v T).sMax := by
  have hM1 : 1 < minMaxFactor v T := one_lt_minMaxFactor v T hv hT
  have hM0 : 0 < minMaxFactor v T := minMaxFactor_pos v T
  have hsz : safetyZoneFactor = (1.1:ℝ) := rfl
  by_cases h2 : sMaxAfterLower S K v T < K * safetyZoneFactor
  · have hSK : S < K := spot_lt_strike_of_upper_fire S K v T hS hK hv hT h2
    rw [setGridLimits, if_pos h2, hsz]
    dsimp only
    constructor
    · rw [div_div_eq_mul_div, div_lt_iff₀ (by positivity)]
      nlinarith
    · nlinarith
  · rw [setGridLimits, if_neg h2]
    push_neg at h2
    rw [hsz] at h2
    by_cases h1 : S / minMaxFactor v T > K / safetyZoneFactor
    · have hKS : K / (1.1:ℝ) < S := by
        have hd : S / minMaxFactor v T < S := div_lt_self hS hM1
        rw [hsz] at h1
        linarith
      rw [sMinAfterLower, sMaxAfterLower, if_pos h1, if_pos h1, hsz]
      dsimp only
      constructor
      · linarith
      · rw [div_div_eq_mul_div, lt_div_iff₀ (by positivity)]
        nlinarith
    · rw [sMinAfterLower, sMaxAfterLower, if_neg h1, if_neg h1]
      dsimp only
      exact ⟨div_lt_self hS hM1, (lt_mul_iff_one_lt_right hS).mpr hM1⟩

/-- Witness for C1 at S=100, K=90, v=0.2, T=1. -/
theorem setGridLimits_spot_inside_witness :
    (0:ℝ) < 100 ∧ (0:ℝ) < 90 ∧ (0:ℝ) < 0.2 ∧ (0:ℝ) < 1 ∧
    ((setGridLimits 100 90 0.2 1).sMin < 100 ∧
      100 < (setGridLimits 100 90 0.2 1).sMax) :=
  ⟨by norm_num, by norm_num, by norm_num, by norm_num,
    setGridLimits_spot_inside 100 90 0.2 1 (by norm_num) (by norm_num)
      (by norm_num) (by norm_num)⟩

/-- Claim C2: after setGridLimits returns, the strike lies inside the bounds
by at least the 1.1 safety factor on both sides: sMin ≤ strike/1.1 and
strike*1.1 ≤ sMax, for every spot S>0, strike K>0, v>0, T>0. -/
theorem setGridLimits_strike_margin (S K v T : ℝ)
    (hS : 0 < S) (hK : 0 < K) (hv : 0 < v) (hT : 0 < T) :
    (setGridLimits S K v T).sMin ≤ K / 1.1 ∧
      K * 1.1 ≤ (setGridLimits S K v T).sMax := by
  have hM1 : 1 < minMaxFactor v T := one_lt_minMaxFactor v T hv hT
  have hM0 : 0 < minMaxFactor v T := minMaxFactor_pos v T
  have hsz : safetyZoneFactor = (1.1:ℝ) := rfl
  by_cases h2 : sMaxAfterLower S K v T < K * safetyZoneFactor
  · have hSK : S < K := spot_lt_strike_of_upper_fire S K v T hS hK hv hT h2
    rw [setGridLimits, if_pos h2, hsz]
    dsimp only
    constructor
    · rw [div_div_eq_mul_div, div_le_iff₀ (by positivity)]
      have he : K / 1.1 * (K * 1.1) = K * K := by ring
      nlinarith [he]
    · exact le_rfl
  · rw [setGridLimits, if_neg h2]
    push_neg at h2
    rw [hsz] at h2
    dsimp only
    refine ⟨?_, h2⟩
    by_cases h1 : S / minMaxFactor v T > K / safetyZoneFactor
    · rw [sMinAfterLower, if_pos h1, hsz]
    · rw [sMinAfterLower, if_neg h1]
      push_neg at h1
      rw [hsz] at h1
      exact h1

/-- Witness for C2 at S=100, K=95, v=0.3, T=2. -/
theorem setGridLimits_strike_margin_witness :
    (0:ℝ) < 100 ∧ (0:ℝ) < 95 ∧ (0:ℝ) < 0.3 ∧ (0:ℝ) < 2 ∧
    ((setGridLimits 100 95 0.3 2).sMin ≤ 95 / 1.1 ∧
      95 * 1.1 ≤ (setGridLimits 100 95 0.3 2).sMax) :=
  ⟨by norm_num, by norm_num, by norm_num, by norm_num,
    setGridLimits_strike_margin 100 95 0.3 2 (by norm_num) (by norm_num)
      (by norm_num) (by norm_num)⟩

/-- Claim C3: whenever a re-centering branch of setGridLimits triggers, the
bounds it produces satisfy sMin * sMax = S^2 — the spot stays geometrically
centered in log-space between the final bounds — for every S>0, K>0, v>0,
T>0. -/
theorem setGridLimits_recentering_centers (S K v T : ℝ)
    (hS : 0 < S) (hK : 0 < K) (hv : 0 < v) (hT : 0 < T)
    (hfire : lowerRecenterFires S K v T ∨ upperRecenterFires S K v T) :
    (setGridLimits S K v T).sMin * (setGridLimits S K v T).sMax = S ^ 2 := by
  have hsz : safetyZoneFactor = (1.1:ℝ) := rfl
  have hS0 : S ≠ 0 := ne_of_gt hS
  have hK0 : K ≠ 0 := ne_of_gt hK
  by_cases h2 : sMaxAfterLower S K v T < K * safetyZoneFactor
  · rw [setGridLimits, if_pos h2, hsz]
    dsimp only
    field_simp
    ring
  · have h1 : S / minMaxFactor v T > K / safetyZoneFactor := by
      rcases hfire with h | h
      · exact h
      · exact absurd h h2
    rw [setGridLimits, if_neg h2]
    dsimp only
    rw [sMinAfterLower, sMaxAfterLower, if_pos h1, if_pos h1, hsz]
    field_simp
    ring

/-- Witness for C3 at S=100, K=1, v=0.2, T=1, where the lower re-centering
branch fires because the strike is far below the initial lower bound. -/
theorem setGridLimits_recentering_centers_witness :
    ((0:ℝ) < 100 ∧ (0:ℝ) < 1 ∧ (0:ℝ) < 0.2 ∧ (0:ℝ) < 1 ∧
      (lowerRecenterFires 100 1 0.2 1 ∨ upperRecenterFires 100 1 0.2 1)) ∧
    (setGridLimits 100 1 0.2 1).sMin * (setGridLimits 100 1 0.2 1).sMax
      = 100 ^ 2 := by
  have hM3 : minMaxFactor 0.2 1 < 3 := by
    rw [minMaxFactor, volSqrtTime, Real.sqrt_one]
    have he : (4.0 * (1.0 + 0.02 / (0.2 * 1)) * (0.2 * 1) : ℝ) = 0.88 := by
      norm_num
    rw [he]
    calc Real.exp 0.88 ≤ Real.exp 1 := Real.exp_le_exp.mpr (by norm_num)
      _ < 3 := by linarith [Real.exp_one_lt_d9]
  have hfire : lowerRecenterFires 100 1 0.2 1 := by
    show (100:ℝ) / minMaxFactor 0.2 1 > 1 / safetyZoneFactor
    have hsz : safetyZoneFactor = (1.1:ℝ) := rfl
    rw [gt_iff_lt, hsz, div_lt_div_iff₀ (by norm_num) (minMaxFactor_pos 0.2 1)]
    nlinarith [minMaxFactor_pos 0.2 1]
  exact ⟨⟨by norm_num, by norm_num, by norm_num, by norm_num, Or.inl hfire⟩,
    setGridLimits_recentering_centers 100 1 0.2 1 (by norm_num) (by norm_num)
      (by norm_num) (by norm_num) (Or.inl hfire)⟩

/-- `gridLogSpacing_ = (QL_LOG(sMax_)-QL_LOG(sMin_))/(gridPoints_-1)`
(bsmnumericaloption.cpp line 190). -/
noncomputable def gridLogSpacing (sMin sMax : ℝ) (N : ℕ) : ℝ :=
  (Real.log sMax - Real.log sMin) / ((N : ℝ) - 1)

/-- Contents of the `grid_` array built by `BSMNumericalOption::initializeGrid`
(lines 189-196): `grid_[0] = sMin_` and `grid_[j] = grid_[j-1]*edx` with
`edx = QL_EXP(gridLogSpacing_)`. -/
noncomputable def gridPoint (sMin sMax : ℝ) (N : ℕ) : ℕ → ℝ
  | 0 => sMin
  | j + 1 => gridPoint sMin sMax N j * Real.exp (gridLogSpacing sMin sMax N)

/-- The `grid_` array of length `gridPoints_` filled by `initializeGrid`. -/
noncomputable def initializeGrid (sMin sMax : ℝ) (N : ℕ) : List ℝ :=
  (List.range N).map (gridPoint sMin sMax N)

theorem getD_map_range (f : ℕ → ℝ) (N j : ℕ) (hj : j < N) :
    ((List.range N).map f).getD j 0 = f j := by
  rw [List.getD_eq_getElem?_getD, List.getElem?_map, List.getElem?_range hj]
  rfl

theorem gridPoint_closed (sMin sMax : ℝ) (N : ℕ) (j : ℕ) :
    gridPoint sMin sMax N j
      = sMin * Real.exp (j * gridLogSpacing sMin sMax N) := by
  induction j with
  | zero => simp [gridPoint]
  | succ n ih =>
      rw [gridPoint, ih, mul_assoc, ← Real.exp_add]
      push_cast
      ring_nf

theorem gridPoint_pos (sMin sMax : ℝ) (N : ℕ) (h0 : 0 < sMin) (j : ℕ) :
    0 < gridPoint sMin sMax N j := by
  rw [gridPoint_closed]
  positivity

theorem gridLogSpacing_pos (sMin sMax : ℝ) (N : ℕ)
    (h0 : 0 < sMin) (h1 : sMin < sMax) (hN : 2 ≤ N) :
    0 < gridLogSpacing sMin sMax N := by
  apply div_pos
  · have := Real.log_lt_log h0 h1
    linarith
  · have : (2:ℝ) ≤ (N:ℝ) := by exact_mod_cast hN
    linarith

/-- Claim C4: for every 0 < sMin < sMax and N ≥ 3, initializeGrid produces a
grid with grid[0] = sMin and grid[j] = grid[j-1]*exp((ln sMax - ln sMin)/(N-1)),
hence a strictly increasing exact geometric progression with constant ratio
whose last point grid[N-1] equals sMax (exactly, in the real-number
semantics). -/
theorem initializeGrid_geometric (sMin sMax : ℝ) (N : ℕ)
    (h0 : 0 < sMin) (h1 : sMin < sMax) (hN : 3 ≤ N) :
    (initializeGrid sMin sMax N).getD 0 0 = sMin ∧
    (∀ j : ℕ, j < N → (initializeGrid sMin sMax N).getD j 0
      = gridPoint sMin sMax N j) ∧
    (∀ j : ℕ, gridPoint sMin sMax N (j + 1)
      = gridPoint sMin sMax N j * Real.exp (gridLogSpacing sMin sMax N)) ∧
    StrictMono (gridPoint sMin sMax N) ∧
    gridPoint sMin sMax N (N - 1) = sMax := by
  have hN2 : 2 ≤ N := le_trans (by norm_num) hN
  have hΔ : 0 < gridLogSpacing sMin sMax N := gridLogSpacing_pos _ _ _ h0 h1 hN2
  refine ⟨?_, ?_, ?_, ?_, ?_⟩
  · rw [initializeGrid, getD_map_range _ _ _ (by omega)]
    rfl
  · intro j hj
    exact getD_map_range _ _ _ hj
  · intro j
    rfl
  · apply strictMono_nat_of_lt_succ
    intro n
    rw [gridPoint]
    have hpos : 0 < gridPoint sMin sMax N n := gridPoint_pos _ _ _ h0 n
    have hexp : 1 < Real.exp (gridLogSpacing sMin sMax N) :=
      Real.one_lt_exp_iff.mpr hΔ
    exact (lt_mul_iff_one_lt_right hpos).mpr hexp
  · rw [gridPoint_closed]
    have hcast : ((N - 1 : ℕ) : ℝ) = (N : ℝ) - 1 := by
      have : 1 ≤ N := by omega
      push_cast [this]
      ring
    have hNe : ((N : ℝ) - 1) ≠ 0 := by
      have : (3:ℝ) ≤ (N:ℝ) := by exact_mod_cast hN
      linarith
    rw [hcast, gridLogSpacing, mul_div_cancel₀ _ hNe, Real.exp_sub,
      Real.exp_log (lt_trans h0 h1), Real.exp_log h0]
    field_simp

/-- Witness for C4 at sMin=1, sMax=2, N=3. -/
theorem initializeGrid_geometric_witness :
    (0:ℝ) < 1 ∧ (1:ℝ) < 2 ∧ 3 ≤ 3 ∧
    ((initializeGrid 1 2 3).getD 0 0 = 1 ∧
      (∀ j : ℕ, j < 3 → (initializeGrid 1 2 3).getD j 0 = gridPoint 1 2 3 j) ∧
      (∀ j : ℕ, gridPoint 1 2 3 (j + 1)
        = gridPoint 1 2 3 j * Real.exp (gridLogSpacing 1 2 3)) ∧
      StrictMono (gridPoint 1 2 3) ∧
      gridPoint 1 2 3 (3 - 1) = 2) :=
  ⟨by norm_num, by norm_num, by norm_num,
    initializeGrid_geometric 1 2 3 (by norm_num) (by norm_num) (by norm_num)⟩

/-- Tag value of `BSMOption::Type::Call`, the first enumerator. -/
def CallTag : ℤ := 0

/-- Tag value of `BSMOption::Type::Put`, the second enumerator. -/
def PutTag : ℤ := 1

/-- Tag value of `BSMOption::Type::Straddle`, the third enumerator. -/
def StraddleTag : ℤ := 2

/-- `BSMNumericalOption::initializeInitialCondition` (bsmnumericaloption.cpp
lines 198-217): a `switch` on `type_` filling `initialPrices_[j]` for
`j < gridPoints_` with `QL_MAX(grid_[j]-strike_,0.0)`,
`QL_MAX(strike_-grid_[j],0.0)` or `QL_FABS(strike_-grid_[j])`; the `default`
branch raises `QL_REQUIRE(1 == 0, "BSMNumericalOption: invalid option type")`.
The tag is modelled as the underlying integer of the C++ enum so that values
outside the enumerated set are representable. -/
noncomputable def initializeInitialCondition (type_ : ℤ) (strike : ℝ)
    (grid_ : ℕ → ℝ) (N : ℕ) : Except String (List ℝ) :=
  if type_ = CallTag then
    Except.ok ((List.range N).map fun j => max (grid_ j - strike) 0)
  else if type_ = PutTag then
    Except.ok ((List.range N).map fun j => max (strike - grid_ j) 0)
  else if type_ = StraddleTag then
    Except.ok ((List.range N).map fun j => |strike - grid_ j|)
  else
    Except.error "BSMNumericalOption: invalid option type"

/-- Claim C5: at every grid point j < N, initializeInitialCondition sets
payoff[j] = max(grid[j] - strike, 0) for Call, max(strike - grid[j], 0) for
Put, |strike - grid[j]| for Straddle, and for any tag outside
{Call, Put, Straddle} it raises InvalidArgument. -/
theorem initializeInitialCondition_payoff (strike : ℝ) (grid_ : ℕ → ℝ)
    (N j : ℕ) (hj : j < N) :
    (∃ l, initializeInitialCondition CallTag strike grid_ N = Except.ok l ∧
      l.getD j 0 = max (grid_ j - strike) 0) ∧
    (∃ l, initializeInitialCondition PutTag strike grid_ N = Except.ok l ∧
      l.getD j 0 = max (strike - grid_ j) 0) ∧
    (∃ l, initializeInitialCondition StraddleTag strike grid_ N = Except.ok l ∧
      l.getD j 0 = |strike - grid_ j|) ∧
    (∀ t : ℤ, t ≠ CallTag → t ≠ PutTag → t ≠ StraddleTag →
      initializeInitialCondition t strike grid_ N
        = Except.error "BSMNumericalOption: invalid option type") := by
  refine ⟨?_, ?_, ?_, ?_⟩
  · refine ⟨(List.range N).map fun i => max (grid_ i - strike) 0, ?_, ?_⟩
    · rw [initializeInitialCondition, if_pos rfl]
    · exact getD_map_range _ _ _ hj
  · refine ⟨(List.range N).map fun i => max (strike - grid_ i) 0, ?_, ?_⟩
    · rw [initializeInitialCondition, if_neg (by decide), if_pos rfl]
    · exact getD_map_range _ _ _ hj
  · refine ⟨(List.range N).map fun i => |strike - grid_ i|, ?_, ?_⟩
    · rw [initializeInitialCondition, if_neg (by decide), if_neg (by decide),
        if_pos rfl]
    · exact getD_map_range _ _ _ hj
  · intro t ht1 ht2 ht3
    rw [initializeInitialCondition, if_neg ht1, if_neg ht2, if_neg ht3]

/-- Witness for C5 at strike=5, grid j = j, N=3, j=1. -/
theorem initializeInitialCondition_payoff_witness :
    1 < 3 ∧
    ((∃ l, initializeInitialCondition CallTag 5 (fun n => (n:ℝ)) 3
        = Except.ok l ∧ l.getD 1 0 = max (((1:ℕ):ℝ) - 5) 0) ∧
    (∃ l, initializeInitialCondition PutTag 5 (fun n => (n:ℝ)) 3
        = Except.ok l ∧ l.getD 1 0 = max (5 - ((1:ℕ):ℝ)) 0) ∧
    (∃ l, initializeInitialCondition StraddleTag 5 (fun n => (n:ℝ)) 3
        = Except.ok l ∧ l.getD 1 0 = |5 - ((1:ℕ):ℝ)|) ∧
    (∀ t : ℤ, t ≠ CallTag → t ≠ PutTag → t ≠ StraddleTag →
      initializeInitialCondition t 5 (fun n => (n:ℝ)) 3
        = Except.error "BSMNumericalOption: invalid option type")) :=
  ⟨by norm_num, initializeInitialCondition_payoff 5 (fun n => (n:ℝ)) 3 1
    (by norm_num)⟩

/-- The type part of `FiniteDifferences::BoundaryCondition`
(None, Neumann, Dirichlet). -/
inductive BoundaryConditionType where
  | None
  | Neumann
  | Dirichlet

/-- A `FiniteDifferences::BoundaryCondition` descriptor: a type and a value. -/
structure BoundaryCondition where
  bcType : BoundaryConditionType
  value : ℝ

/-- The constructor arguments of the `BSMOperator` built at
bsmnumericaloption.cpp lines 220-221. -/
structure BSMOperatorParams where
  size : ℕ
  logSpacing : ℝ
  riskFreeRate : ℝ
  dividendYield : ℝ
  volatility : ℝ

/-- The assembled `finiteDifferenceOperator_`: the spatial operator plus the
two boundary-condition descriptors attached by `setLowerBC`/`setHigherBC`. -/
structure FiniteDifferenceOperator where
  op : BSMOperatorParams
  lowerBC : BoundaryCondition
  higherBC : BoundaryCondition

/-- `BSMNumericalOption::initializeOperator` (bsmnumericaloption.cpp lines
219-231): builds `BSMOperator(gridPoints_, gridLogSpacing_, riskFreeRate_,
dividendYield_, volatility_)` and attaches a Neumann lower boundary condition
with value `initialPrices_[1]-initialPrices_[0]` and a Neumann higher boundary
condition with value `initialPrices_[gridPoints_-1]-initialPrices_[gridPoints_-2]`. -/
noncomputable def initializeOperator (gridPoints : ℕ)
    (logSpacing riskFreeRate dividendYield volatility : ℝ)
    (initialPrices : ℕ → ℝ) : FiniteDifferenceOperator :=
  ⟨⟨gridPoints, logSpacing, riskFreeRate, dividendYield, volatility⟩,
   ⟨BoundaryConditionType.Neumann, initialPrices 1 - initialPrices 0⟩,
   ⟨BoundaryConditionType.Neumann,
     initialPrices (gridPoints - 1) - initialPrices (gridPoints - 2)⟩⟩

/-- Claim C6: for every payoff vector (hence for every variant that produced
it), initializeOperator attaches a lower boundary condition of Neumann type
with value exactly payoff[1] - payoff[0] and a higher boundary condition of
Neumann type with value exactly payoff[N-1] - payoff[N-2]. -/
theorem initializeOperator_neumann (N : ℕ) (logSpacing r q vol : ℝ)
    (payoff : ℕ → ℝ) :
    (initializeOperator N logSpacing r q vol payoff).lowerBC
      = ⟨BoundaryConditionType.Neumann, payoff 1 - payoff 0⟩ ∧
    (initializeOperator N logSpacing r q vol payoff).higherBC
      = ⟨BoundaryConditionType.Neumann, payoff (N - 1) - payoff (N - 2)⟩ :=
  ⟨rfl, rfl⟩

/-- Claim C10: with gridPoints ≥ 3 and a variant in {Call, Put, Straddle},
the arrays built by initializeGrid and initializeInitialCondition have length
gridPoints, all indices used by the pipeline (0, 1, gridPoints-2,
gridPoints-1) are within bounds, and the divisor gridPoints-1 of the
log-spacing computation is nonzero. -/
theorem pipeline_accesses_in_bounds (sMin sMax strike : ℝ) (N : ℕ)
    (hN : 3 ≤ N) (t : ℤ)
    (ht : t = CallTag ∨ t = PutTag ∨ t = StraddleTag) :
    (initializeGrid sMin sMax N).length = N ∧
    (∃ l, initializeInitialCondition t strike (gridPoint sMin sMax N) N
        = Except.ok l ∧ l.length = N ∧ 0 < l.length ∧ 1 < l.length ∧
        N - 2 < l.length ∧ N - 1 < l.length) ∧
    ((N : ℝ) - 1) ≠ 0 := by
  have hbounds : ∀ l : List ℝ, l.length = N →
      l.length = N ∧ 0 < l.length ∧ 1 < l.length ∧
        N - 2 < l.length ∧ N - 1 < l.length := by
    intro l hl
    refine ⟨hl, ?_, ?_, ?_, ?_⟩ <;> omega
  refine ⟨by simp [initializeGrid], ?_, ?_⟩
  · rcases ht with h | h | h <;> subst h
    · refine ⟨(List.range N).map fun i => max (gridPoint sMin sMax N i - strike) 0,
        ?_, hbounds _ (by simp)⟩
      rw [initializeInitialCondition, if_pos rfl]
    · refine ⟨(List.range N).map fun i => max (strike - gridPoint sMin sMax N i) 0,
        ?_, hbounds _ (by simp)⟩
      rw [initializeInitialCondition, if_neg (by decide), if_pos rfl]
    · refine ⟨(List.range N).map fun i => |strike - gridPoint sMin sMax N i|,
        ?_, hbounds _ (by simp)⟩
      rw [initializeInitialCondition, if_neg (by decide), if_neg (by decide),
        if_pos rfl]
  · have h3 : (3:ℝ) ≤ (N:ℝ) := by exact_mod_cast hN
    linarith

/-- Witness for C10 at sMin=1, sMax=2, strike=0, N=3, variant Call. -/
theorem pipeline_accesses_in_bounds_witness :
    (3 ≤ 3 ∧ (CallTag = CallTag ∨ CallTag = PutTag ∨ CallTag = StraddleTag)) ∧
    ((initializeGrid 1 2 3).length = 3 ∧
    (∃ l, initializeInitialCondition CallTag 0 (gridPoint 1 2 3) 3
        = Except.ok l ∧ l.length = 3 ∧ 0 < l.length ∧ 1 < l.length ∧
        3 - 2 < l.length ∧ 3 - 1 < l.length) ∧
    (((3:ℕ) : ℝ) - 1) ≠ 0) :=
  ⟨⟨by norm_num, Or.inl rfl⟩,
    pipeline_accesses_in_bounds 1 2 0 3 (by norm_num) CallTag (Or.inl rfl)⟩

/-- The lazily cached state of a `BSMNumericalOption` pricing session:
`hasBeenCalculated_` plus the four cached Greeks, extended with the
specification's instrumentation counter for pipeline invocations. -/
structure PricerState where
  hasBeenCalculated_ : Bool
  value_ : ℝ
  delta_ : ℝ
  gamma_ : ℝ
  theta_ : ℝ
  calcCount : ℕ

/-- State established by the `BSMNumericalOption` constructor
(bsmnumericaloption.cpp lines 131-140): `hasBeenCalculated_ = false`; the
Greek members are not yet meaningful (modelled as 0) and the pipeline has not
run. -/
def initialPricerState : PricerState := ⟨false, 0, 0, 0, 0, 0⟩

/-- Modelled from the spec: the body of `calculate()` is not under src/ (it
lives in derived pricer classes; bsmnumericaloption.cpp holds only the
accessors that trigger it). Per spec section 4.5 it runs the full pipeline,
stores all four Greeks atomically and moves the cache to the Computed state;
`calcCount` is the instrumentation counter of spec section 8. The pipeline's
output is passed in as `results = (value, delta, gamma, theta)`. -/
def calculate (results : ℝ × ℝ × ℝ × ℝ) (s : PricerState) : PricerState :=
  ⟨true, results.1, results.2.1, results.2.2.1, results.2.2.2, s.calcCount + 1⟩

/-- The guard shared by the four accessors (bsmnumericaloption.cpp lines
142-164): `if (!hasBeenCalculated_) calculate();`. -/
def accessorStep (results : ℝ × ℝ × ℝ × ℝ) (s : PricerState) : PricerState :=
  if s.hasBeenCalculated_ then s else calculate results s

/-- `BSMNumericalOption::value` (lines 142-146): run the guard, return the
cached `value_`; the pair is (state after the call, returned scalar). -/
def value (results : ℝ × ℝ × ℝ × ℝ) (s : PricerState) : PricerState × ℝ :=
  (accessorStep results s, (accessorStep results s).value_)

/-- `BSMNumericalOption::delta` (lines 148-152). -/
def delta (results : ℝ × ℝ × ℝ × ℝ) (s : PricerState) : PricerState × ℝ :=
  (accessorStep results s, (accessorStep results s).delta_)

/-- `BSMNumericalOption::gamma` (lines 154-158). -/
def gamma (results : ℝ × ℝ × ℝ × ℝ) (s : PricerState) : PricerState × ℝ :=
  (accessorStep results s, (accessorStep results s).gamma_)

/-- `BSMNumericalOption::theta` (lines 160-164). -/
def theta (results : ℝ × ℝ × ℝ × ℝ) (s : PricerState) : PricerState × ℝ :=
  (accessorStep results s, (accessorStep results s).theta_)

/-- One of the four public accessors of the session. -/
inductive Accessor where
  | value
  | delta
  | gamma
  | theta

/-- State evolution of a session under a sequence of accessor calls; each of
the four accessors performs the identical state update `accessorStep`. -/
def runAccessors (results : ℝ × ℝ × ℝ × ℝ) :
    List Accessor → PricerState → PricerState
  | [], s => s
  | _ :: rest, s => runAccessors results rest (accessorStep results s)

theorem runAccessors_computed (results : ℝ × ℝ × ℝ × ℝ) (l : List Accessor)
    (s : PricerState) (h : s.hasBeenCalculated_ = true) :
    runAccessors results l s = s := by
  induction l with
  | nil => rfl
  | cons a rest ih =>
      have hstep : accessorStep results s = s := by
        rw [accessorStep, if_pos h]
      calc runAccessors results (a :: rest) s
          = runAccessors results rest (accessorStep results s) := rfl
        _ = runAccessors results rest s := by rw [hstep]
        _ = s := ih

/-- Claim C7: for every session, the first accessor call triggers calculate()
and every later call returns the cached scalar without re-running it: after
any nonempty sequence of accessor calls starting from the constructor state,
the pipeline has run exactly once (calcCount = 1), the computed flag is set,
and each accessor applied to the resulting state leaves the state unchanged
and returns the corresponding cached scalar. -/
theorem calculate_runs_once (results : ℝ × ℝ × ℝ × ℝ) (calls : List Accessor)
    (h : calls ≠ []) (s : PricerState)
    (hs : s = runAccessors results calls initialPricerState) :
    s.calcCount = 1 ∧ s.hasBeenCalculated_ = true ∧
    value results s = (s, s.value_) ∧ delta results s = (s, s.delta_) ∧
    gamma results s = (s, s.gamma_) ∧ theta results s = (s, s.theta_) := by
  have hrun : s = calculate results initialPricerState := by
    cases calls with
    | nil => exact absurd rfl h
    | cons a rest =>
        rw [hs]
        show runAccessors results rest (accessorStep results initialPricerState)
          = calculate results initialPricerState
        have hstep : accessorStep results initialPricerState
            = calculate results initialPricerState := rfl
        rw [hstep]
        exact runAccessors_computed results rest _ rfl
  have hflag : s.hasBeenCalculated_ = true := by rw [hrun]; rfl
  have hcached : accessorStep results s = s := by rw [accessorStep, if_pos hflag]
  refine ⟨by rw [hrun]; rfl, hflag, ?_, ?_, ?_, ?_⟩ <;>
    simp [value, delta, gamma, theta, hcached]

/-- Witness for C7: two `value()` calls on a fresh session with pipeline
results (1,2,3,4) leave the session in the computed state with exactly one
pipeline invocation. -/
theorem calculate_runs_once_witness :
    (([Accessor.value, Accessor.value] : List Accessor) ≠ [] ∧
      (⟨true, 1, 2, 3, 4, 1⟩ : PricerState)
        = runAccessors (1, 2, 3, 4) [Accessor.value, Accessor.value]
            initialPricerState) ∧
    ((⟨true, 1, 2, 3, 4, 1⟩ : PricerState).calcCount = 1 ∧
      (⟨true, 1, 2, 3, 4, 1⟩ : PricerState).hasBeenCalculated_ = true ∧
      value (1, 2, 3, 4) ⟨true, 1, 2, 3, 4, 1⟩
        = (⟨true, 1, 2, 3, 4, 1⟩, (⟨true, 1, 2, 3, 4, 1⟩ : PricerState).value_) ∧
      delta (1, 2, 3, 4) ⟨true, 1, 2, 3, 4, 1⟩
        = (⟨true, 1, 2, 3, 4, 1⟩, (⟨true, 1, 2, 3, 4, 1⟩ : PricerState).delta_) ∧
      gamma (1, 2, 3, 4) ⟨true, 1, 2, 3, 4, 1⟩
        = (⟨true, 1, 2, 3, 4, 1⟩, (⟨true, 1, 2, 3, 4, 1⟩ : PricerState).gamma_) ∧
      theta (1, 2, 3, 4) ⟨true, 1, 2, 3, 4, 1⟩
        = (⟨true, 1, 2, 3, 4, 1⟩, (⟨true, 1, 2, 3, 4, 1⟩ : PricerState).theta_)) :=
  ⟨⟨List.cons_ne_nil _ _, rfl⟩,
    calculate_runs_once (1, 2, 3, 4) [Accessor.value, Accessor.value]
      (List.cons_ne_nil _ _) ⟨true, 1, 2, 3, 4, 1⟩ rfl⟩

/-- Data members stored by the `MCForwardVanillaEngine` constructor
(mcforwardvanillaengine.hpp lines 79-83 and 98-102). `Size` fields that the
caller may leave at `Null<Size>()` are modelled as `Option ℕ`, with `none`
standing for `Null<Size>()` (which is a sentinel distinct from 0). -/
structure MCForwardVanillaEngine where
  timeSteps_ : Option ℕ
  timeStepsPerYear_ : Option ℕ
  requiredSamples_ : ℕ
  maxSamples_ : ℕ
  requiredTolerance_ : ℝ
  brownianBridge_ : Bool
  antitheticVariate_ : Bool
  seed_ : ℕ

/-- The `MCForwardVanillaEngine` constructor (mcforwardvanillaengine.hpp lines
87-116): after storing its arguments it runs four `QL_REQUIRE` validations in
order; the first failing one throws, modelled as `Except.error` carrying the
message. Note the third and fourth checks compare against 0, which
`Null<Size>()` never equals. -/
def mkMCForwardVanillaEngine (timeSteps timeStepsPerYear : Option ℕ)
    (brownianBridge antitheticVariate : Bool)
    (requiredSamples : ℕ) (requiredTolerance : ℝ) (maxSamples : ℕ)
    (seed : ℕ) : Except String MCForwardVanillaEngine :=
  if timeSteps ≠ none ∨ timeStepsPerYear ≠ none then
    if timeSteps = none ∨ timeStepsPerYear = none then
      if timeSteps ≠ some 0 then
        if timeStepsPerYear ≠ some 0 then
          Except.ok ⟨timeSteps, timeStepsPerYear, requiredSamples, maxSamples,
            requiredTolerance, brownianBridge, antitheticVariate, seed⟩
        else Except.error "timeStepsPerYear must be positive"
      else Except.error "timeSteps must be positive"
    else Except.error "both time steps and time steps per year were provided"
  else Except.error "no time steps provided"

/-- Claim C8: the simulation engine constructor raises InvalidArgument exactly
when the step configuration is ill-formed — neither or both of
timeSteps/timeStepsPerYear supplied, or a supplied value equal to zero — and
succeeds exactly when one positive value is supplied. -/
theorem mkMCForwardVanillaEngine_validation (ts tspy : Option ℕ)
    (bb av : Bool) (rs ms seed : ℕ) (rt : ℝ) :
    ((∃ e, mkMCForwardVanillaEngine ts tspy bb av rs rt ms seed
        = Except.error e)
      ↔ ((ts = none ∧ tspy = none) ∨ (ts ≠ none ∧ tspy ≠ none) ∨
          ts = some 0 ∨ tspy = some 0)) ∧
    ((∃ eng, mkMCForwardVanillaEngine ts tspy bb av rs rt ms seed
        = Except.ok eng)
      ↔ (∃ n : ℕ, 0 < n ∧
          ((ts = some n ∧ tspy = none) ∨ (ts = none ∧ tspy = some n)))) := by
  rcases ts with _ | n <;> rcases tspy with _ | m
  · simp [mkMCForwardVanillaEngine]
  · by_cases hm : m = 0
    · simp [mkMCForwardVanillaEngine, hm]
    · simp [mkMCForwardVanillaEngine, hm]
      omega
  · by_cases hn : n = 0
    · simp [mkMCForwardVanillaEngine, hn]
    · simp [mkMCForwardVanillaEngine, hn]
      omega
  · simp [mkMCForwardVanillaEngine]

/-- Modelled from the spec: the positivity validation of volatility and
residual time happens upstream of `setGridLimits`, in the `BSMOption`
base-class constructor, which is not under src/ (bsmnumericaloption.cpp lines
131-140 only forward the arguments to it). Spec section 4.1: "Fails with
InvalidArgument if sigma or T is non-positive (delegated to upstream
validation)". This wrapper performs that validation before computing the
bounds. -/
noncomputable def setGridLimitsChecked
    (underlying strike volatility residualTime : ℝ) :
    Except String GridLimits :=
  if volatility ≤ 0 then
    Except.error "InvalidArgument: volatility must be positive"
  else if residualTime ≤ 0 then
    Except.error "InvalidArgument: residual time must be positive"
  else
    Except.ok (setGridLimits underlying strike volatility residualTime)

/-- Claim C9: for every call with volatility ≤ 0 or residual time ≤ 0, the
grid-bounds computation fails with InvalidArgument and never produces
bounds. -/
theorem setGridLimitsChecked_invalid (S K v T : ℝ) (h : v ≤ 0 ∨ T ≤ 0) :
    (∃ e, setGridLimitsChecked S K v T = Except.error e) ∧
    (∀ gl : GridLimits, setGridLimitsChecked S K v T ≠ Except.ok gl) := by
  have herr : ∃ e, setGridLimitsChecked S K v T = Except.error e := by
    by_cases hv : v ≤ 0
    · exact ⟨_, by rw [setGridLimitsChecked, if_pos hv]⟩
    · have hT : T ≤ 0 := h.resolve_left hv
      exact ⟨_, by rw [setGridLimitsChecked, if_neg hv, if_pos hT]⟩
  obtain ⟨e, he⟩ := herr
  refine ⟨⟨e, he⟩, ?_⟩
  intro gl hgl
  rw [he] at hgl
  exact Except.noConfusion hgl

/-- Witness for C9 at volatility -1 (non-positive) with T = 1. -/
theorem setGridLimitsChecked_invalid_witness :
    ((-1:ℝ) ≤ 0 ∨ (1:ℝ) ≤ 0) ∧
    ((∃ e, setGridLimitsChecked 100 100 (-1) 1 = Except.error e) ∧
      (∀ gl : GridLimits, setGridLimitsChecked 100 100 (-1) 1
        ≠ Except.ok gl)) :=
  ⟨Or.inl (by norm_num),
    setGridLimitsChecked_invalid 100 100 (-1) 1 (Or.inl (by norm_num))⟩

end QuantLib
